/-
Verification of the rule-matching and scoring engine of the
actuary-sleuth repository, as a shallow embedding in Lean 4.

Conventions of the embedding:
- Python strings are modelled as `List Char`; the Python substring test
  `a in b` is `containsSub b a` below (note the empty string is a
  substring of every string, as in Python).
- Python numbers (ints/floats) used in the pricing analysis are modelled
  as exact rationals `ℚ`.
- A Python dict field read with `d.get(k)` / `d.get(k, default)` is
  modelled with `Option` plus `Option.getD`.
- A caught exception path (`try`/`except`) is modelled inside the
  function; an uncaught exception is modelled with `Except`.
-/
import Mathlib

namespace ActuarySleuth

/-- Shorthand: a Python string as a list of characters. -/
def cs (s : String) : List Char := s.toList

/-- `needleStarts needle haystack` : `needle` is a prefix of `haystack`. -/
def needleStarts : List Char → List Char → Bool
  | [], _ => true
  | _ :: _, [] => false
  | a :: as, b :: bs => a == b && needleStarts as bs

/-- Python's substring test `needle in haystack` on strings. -/
def containsSub (haystack needle : List Char) : Bool :=
  match haystack with
  | [] => needle.isEmpty
  | _ :: rest => needleStarts needle haystack || containsSub rest needle

/-- Python's `str.split(sep)` for a one-character separator. -/
def splitOn (sep : Char) : List Char → List (List Char)
  | [] => [[]]
  | c :: rest =>
    if c == sep then [] :: splitOn sep rest
    else
      match splitOn sep rest with
      | [] => [[c]]
      | w :: ws => (c :: w) :: ws

/-- ASCII case folding for one character, modelling Python `str.lower()`
on the ASCII severity vocabulary used by this repository. -/
def asciiLower (c : Char) : Char :=
  if 'A' ≤ c ∧ c ≤ 'Z' then Char.ofNat (c.toNat + 32) else c

/-- Python `s.lower()` (ASCII model). -/
def lowerStr (s : List Char) : List Char := s.map asciiLower

/- ===================== check.py : the clause matcher ===================== -/

/-- An element of a parsed JSON list as consumed by the keyword loop of
`match_rule` in `check.py`: either a string or some non-string JSON value
(which the `isinstance(keyword, str)` guard skips). -/
inductive JsonItem where
  | str (s : List Char)
  | other
deriving DecidableEq

/-- An element of the `patterns` list of a rule in `check.py`.  A string
entry is a regular-expression source text: compiling it either fails
(`re.error`, the `invalid` constructor) or yields a compiled regex whose
`re.search` behaviour on a clause text we model as an abstract Boolean
function (`valid`).  Non-string entries are skipped by the
`isinstance(pattern, str)` guard. -/
inductive PatternItem where
  | valid (search : List Char → Bool)
  | invalid
  | nonstring

/-- A JSON-ish field value as consumed by `_parse_json_field` in
`check.py`: already a list, a JSON string that parses to a list, a
string that fails to parse, or some other value. -/
inductive JsonField (α : Type) where
  | arr (items : List α)
  | strArr (items : List α)
  | strBad
  | other

/-- `_parse_json_field` from `check.py`: lists pass through, strings are
JSON-parsed (parse failure gives `[]`), anything else gives `[]`. -/
def parse_json_field {α : Type} : JsonField α → List α
  | .arr items => items
  | .strArr items => items
  | .strBad => []
  | .other => []

/-- A negative-list rule as read by `check.py` (`rule['rule_number']`,
`rule['description']`, `rule['severity']` are required keys;
`category`/`remediation` are read with `.get(…, '')`). -/
structure Rule where
  rule_number : List Char
  description : List Char
  severity : List Char
  category : Option (List Char)
  remediation : Option (List Char)
  keywords : JsonField JsonItem
  patterns : JsonField PatternItem

/-- One keyword entry fires iff it is a string that is a substring of the
clause text (`isinstance(keyword, str) and keyword in clause`). -/
def keywordFires (clause : List Char) : JsonItem → Bool
  | .str s => containsSub clause s
  | .other => false

/-- One pattern entry fires iff it is a string whose regex compiles and
`re.search` finds a match; a non-string entry is skipped and a
malformed regex raises `re.error`, which `match_rule` catches and treats
as a non-match (`except re.error: continue`). -/
def patternFires (clause : List Char) : PatternItem → Bool
  | .valid search => search clause
  | .invalid => false
  | .nonstring => false

/-- `match_rule` from `check.py`: a rule fires on a clause iff some
keyword is a substring of the clause text or some (valid) pattern
matches it. -/
def match_rule (clause : List Char) (rule : Rule) : Bool :=
  (parse_json_field rule.keywords).any (keywordFires clause) ||
  (parse_json_field rule.patterns).any (patternFires clause)

/-- An entry of the `clauses` input list of `execute` in `check.py`:
a plain string, a dict (with optional `text` and `reference` keys), or
some other value (skipped). -/
inductive ClauseEntry where
  | str (text : List Char)
  | dict (text : Option (List Char)) (reference : Option (List Char))
  | other

/-- A violation record as produced by `execute` in `check.py`.  The
`severity` field is `Option`al because the aggregation functions read it
with `violation.get('severity', …)`; `execute` always sets it. -/
structure Violation where
  clause_index : Nat
  clause_text : List Char
  clause_reference : List Char
  rule : List Char
  description : List Char
  severity : Option (List Char)
  category : List Char
  remediation : List Char
deriving DecidableEq

/-- The default clause reference `f"条款{idx+1}"` used by `execute`. -/
def defaultReference (idx : Nat) : List Char :=
  cs "条款" ++ (toString (idx + 1)).toList

/-- Text and reference extracted from one clause entry by `execute`
(`none` means the entry is neither a string nor a dict and is skipped). -/
def clauseInfo (idx : Nat) : ClauseEntry → Option (List Char × List Char)
  | .str t => some (t, defaultReference idx)
  | .dict t r => some (t.getD [], r.getD (defaultReference idx))
  | .other => none

/-- The truncated clause preview used by `execute`:
`clause_text[:100] + '...' if len(clause_text) > 100 else clause_text`. -/
def clausePreview (text : List Char) : List Char :=
  if text.length > 100 then text.take 100 ++ cs "..." else text

/-- The violation dict appended by `execute` for a firing (clause, rule)
pair. -/
def mkViolation (idx : Nat) (text reference : List Char) (rule : Rule) :
    Violation where
  clause_index := idx
  clause_text := clausePreview text
  clause_reference := reference
  rule := rule.rule_number
  description := rule.description
  severity := some rule.severity
  category := rule.category.getD []
  remediation := rule.remediation.getD []

/-- The severity summary dict `{'high': _, 'medium': _, 'low': _}`. -/
structure SeveritySummary where
  high : Nat
  medium : Nat
  low : Nat
deriving DecidableEq

/-- `group_by_severity` from `check.py`: buckets by
`violation.get('severity', 'low').lower()`, ignoring severities outside
the three keys. -/
def group_by_severity (violations : List Violation) : SeveritySummary :=
  let sev : Violation → List Char := fun v => lowerStr (v.severity.getD (cs "low"))
  { high := (violations.filter (fun v => sev v = cs "high")).length
    medium := (violations.filter (fun v => sev v = cs "medium")).length
    low := (violations.filter (fun v => sev v = cs "low")).length }

/-- The result dict of `execute` in `check.py` (the `success` key is
always `True` on the non-raising paths and is omitted). -/
structure CheckResult where
  violations : List Violation
  count : Nat
  summary : SeveritySummary
  message : Option (List Char)

/-- The violations produced for one clause entry by the inner rule loop
of `execute` (an entry that is neither a string nor a dict is skipped
by the `continue`). -/
def clauseViolations (idx : Nat) (entry : ClauseEntry) (rules : List Rule) :
    List Violation :=
  match clauseInfo idx entry with
  | none => []
  | some (text, reference) =>
    rules.filterMap fun rule =>
      if match_rule text rule then some (mkViolation idx text reference rule)
      else none

/-- The violations produced by the nested clause × rule loop of
`execute`. -/
def collectViolations (clauses : List ClauseEntry) (rules : List Rule) :
    List Violation :=
  clauses.enum.flatMap fun p => clauseViolations p.1 p.2 rules

/-- `execute` from `check.py`, with the rule list (obtained in the source
from `db.get_negative_list()`) passed as an argument and the input
already validated to be a list. -/
def execute (clauses : List ClauseEntry) (rules : List Rule) : CheckResult :=
  if rules.isEmpty then
    { violations := []
      count := 0
      summary := ⟨0, 0, 0⟩
      message := some (cs "No negative list rules found in database") }
  else
    let violations := collectViolations clauses rules
    { violations := violations
      count := violations.length
      summary := group_by_severity violations
      message := none }

/- ===================== scoring.py : the pricing analyzer ===================== -/

/-- The raw extracted value handed to an `analyze_*` function in
`scoring.py`: a number, a string that `float(…)` parses to a number, a
string that `float(…)` rejects, or any other value (including `None`). -/
inductive RawValue where
  | num (q : ℚ)
  | strNum (q : ℚ)
  | strBad
  | other
deriving DecidableEq

/-- The value-parsing block shared by the three `analyze_*` functions:
numbers pass through, numeric strings are parsed, everything else gives
`None`. -/
def parseRaw : RawValue → Option ℚ
  | .num q => some q
  | .strNum q => some q
  | .strBad => none
  | .other => none

/-- The normalization step shared by the three `analyze_*` functions:
`if value is not None and value > 1: value = value / 100`. -/
def normalizeValue (q : ℚ) : ℚ :=
  if q > 1 then q / 100 else q

/-- Rounding to two decimals (`round(deviation, 2)`); the exact
tie-breaking of Python's float `round` is irrelevant to every property
proved below, which all use the unrounded deviation as the source does. -/
def round2 (q : ℚ) : ℚ := (round (q * 100) : ℤ) / 100

/-- The `value` field of an analysis dict in `scoring.py`: the
normalized parsed number on success, or the raw input echoed back when
parsing failed (`'value': interest_rate` in the `value is None` branch). -/
inductive AnalysisValue where
  | parsed (q : ℚ)
  | raw (r : RawValue)
deriving DecidableEq

/-- One pricing-dimension analysis dict produced by `scoring.py`. -/
structure DimAnalysis where
  value : AnalysisValue
  benchmark : ℚ
  deviation : Option ℚ
  reasonable : Option Bool
  note : List Char
deriving DecidableEq

/-- The mortality benchmark table of `analyze_mortality`
(`benchmarks.get(product_type, benchmarks['default'])`). -/
def mortalityBenchmark (product_type : List Char) : ℚ :=
  if product_type = cs "life" then 5 / 10000
  else if product_type = cs "health" then 2 / 1000
  else if product_type = cs "accident" then 1 / 1000
  else 1 / 1000

/-- The interest benchmark table of `analyze_interest`. -/
def interestBenchmark (product_type : List Char) : ℚ :=
  if product_type = cs "life" then 35 / 1000
  else if product_type = cs "health" then 35 / 1000
  else if product_type = cs "accident" then 35 / 1000
  else 30 / 1000

/-- The expense benchmark table of `analyze_expense`. -/
def expenseBenchmark (product_type : List Char) : ℚ :=
  if product_type = cs "life" then 12 / 100
  else if product_type = cs "health" then 35 / 100
  else if product_type = cs "accident" then 25 / 100
  else 20 / 100

/-- `analyze_mortality` from `scoring.py`. -/
def analyze_mortality (mortality_rate : RawValue) (product_type : List Char) :
    DimAnalysis :=
  let benchmark := mortalityBenchmark product_type
  match (parseRaw mortality_rate).map normalizeValue with
  | none =>
    { value := .raw mortality_rate, benchmark := benchmark, deviation := none
      reasonable := none, note := cs "无法解析死亡率数值" }
  | some value =>
    let deviation := if benchmark ≠ 0 then (value - benchmark) / benchmark * 100 else 0
    let is_reasonable := |deviation| ≤ 20
    { value := .parsed value
      benchmark := benchmark
      deviation := some (round2 deviation)
      reasonable := some is_reasonable
      note := if is_reasonable then cs "死亡率/发生率符合行业标准"
              else cs "死亡率/发生率偏离行业标准" }

/-- `analyze_interest` from `scoring.py`. -/
def analyze_interest (interest_rate : RawValue) (product_type : List Char) :
    DimAnalysis :=
  let benchmark := interestBenchmark product_type
  match (parseRaw interest_rate).map normalizeValue with
  | none =>
    { value := .raw interest_rate, benchmark := benchmark, deviation := none
      reasonable := none, note := cs "无法解析利率数值" }
  | some value =>
    let deviation := if benchmark ≠ 0 then (value - benchmark) / benchmark * 100 else 0
    let is_reasonable := value ≤ benchmark ∧ |deviation| ≤ 10
    { value := .parsed value
      benchmark := benchmark
      deviation := some (round2 deviation)
      reasonable := some is_reasonable
      note := if benchmark < value then cs "预定利率超过监管上限"
              else if 10 < |deviation| then cs "预定利率偏离行业标准"
              else cs "预定利率符合监管规定" }

/-- `analyze_expense` from `scoring.py`. -/
def analyze_expense (expense_rate : RawValue) (product_type : List Char) :
    DimAnalysis :=
  let benchmark := expenseBenchmark product_type
  match (parseRaw expense_rate).map normalizeValue with
  | none =>
    { value := .raw expense_rate, benchmark := benchmark, deviation := none
      reasonable := none, note := cs "无法解析费用率数值" }
  | some value =>
    let deviation := if benchmark ≠ 0 then (value - benchmark) / benchmark * 100 else 0
    let is_reasonable := value ≤ benchmark ∧ |deviation| ≤ 15
    { value := .parsed value
      benchmark := benchmark
      deviation := some (round2 deviation)
      reasonable := some is_reasonable
      note := if benchmark < value then cs "费用率超过监管上限"
              else if 15 < |deviation| then cs "费用率偏离行业标准"
              else cs "费用率符合监管规定" }

/- ============ lib/evaluation.py and report.py : score and summary ============ -/

/-- The `reasonable` key of a pricing-dimension dict as read with
`.get('reasonable', …)`: missing, present but `None`, or a boolean. -/
inductive ReasonableField where
  | absent
  | null
  | val (b : Bool)
deriving DecidableEq

/-- The value stored under one of the `'mortality'`/`'interest'`/
`'expense'` keys of the `pricing` dict: missing, a non-dict value, or a
dict (of which only the `reasonable` key is ever read). -/
inductive DimEntry where
  | absent
  | nondict
  | dict (r : ReasonableField)
deriving DecidableEq

/-- The `pricing` dict of a pricing-analysis result. -/
structure PricingDict where
  mortality : DimEntry
  interest : DimEntry
  expense : DimEntry
deriving DecidableEq

/-- The value stored under the `'pricing'` key of the pricing-analysis
dict: a dict or some non-dict value. -/
inductive PricingVal where
  | dict (d : PricingDict)
  | nondict
deriving DecidableEq

/-- The `pricing_analysis` argument of the score/summary functions: a
dict with an optional `'pricing'` key; `hasOtherKeys` records whether
any other key is present (it only affects Python truthiness). -/
structure PricingAnalysisDict where
  pricing : Option PricingVal
  hasOtherKeys : Bool
deriving DecidableEq

/-- Python truthiness of the `pricing_analysis` dict
(`if not pricing_analysis: …`). -/
def PricingAnalysisDict.isTruthy (d : PricingAnalysisDict) : Bool :=
  d.pricing.isSome || d.hasOtherKeys

/-- Python truthiness of `value.get('reasonable', True)`
(absent key defaults to `True`; `None` and `False` are falsy). -/
def reasonableTruthyDefaultTrue : ReasonableField → Bool
  | .absent => true
  | .null => false
  | .val b => b

/-- One dimension's contribution in `_count_pricing_issues` of
`lib/evaluation.py`:
`isinstance(value, dict) and not value.get('reasonable', True)`. -/
def dimIssueEval : DimEntry → Bool
  | .dict r => !(reasonableTruthyDefaultTrue r)
  | .absent => false
  | .nondict => false

/-- One dimension's contribution in the pricing loop of `report.py`'s
`calculate_score` (and its `generate_summary`):
`isinstance(analysis, dict) and analysis.get('reasonable') is False`,
with `analysis = pricing.get(category, {})`. -/
def dimIssueReport : DimEntry → Bool
  | .dict (.val false) => true
  | .dict _ => false
  | .absent => false
  | .nondict => false

/-- `_count_pricing_issues` from `lib/evaluation.py`.  When the
`'pricing'` key holds a non-dict value the source evaluates
`pricing.get(category)` on it and raises `AttributeError`, modelled as
`Except.error`. -/
def count_pricing_issues (d : PricingAnalysisDict) : Except Unit Nat :=
  if !d.isTruthy then .ok 0
  else
    match d.pricing.getD (.dict ⟨.absent, .absent, .absent⟩) with
    | .nondict => .error ()
    | .dict p =>
      .ok (([p.interest, p.expense, p.mortality].filter dimIssueEval).length)

/-- The per-violation severity penalty shared by both score functions
(`SEVERITY_PENALTY.get(severity, 0)` in `lib/evaluation.py`; the
`if/elif` ladder in `report.py` computes the same values). -/
def severityPenalty (severity : List Char) : Int :=
  if severity = cs "high" then 20
  else if severity = cs "medium" then 10
  else if severity = cs "low" then 5
  else 0

/-- The total violation penalty: each violation contributes
`severityPenalty` of `violation.get('severity', 'low')`. -/
def violationPenalty (violations : List Violation) : Int :=
  (violations.map (fun v => severityPenalty (v.severity.getD (cs "low")))).sum

/-- `calculate_score` from `lib/evaluation.py` (propagates the
`AttributeError` of `_count_pricing_issues`). -/
def calculate_score_eval (violations : List Violation)
    (pricing_analysis : PricingAnalysisDict) : Except Unit Int :=
  match count_pricing_issues pricing_analysis with
  | .error e => .error e
  | .ok pricing_issues =>
    .ok (max 0 (min 100 (100 - violationPenalty violations - pricing_issues * 10)))

/-- `calculate_score` from `report.py`. -/
def calculate_score_report (violations : List Violation)
    (pricing_analysis : PricingAnalysisDict) : Int :=
  let pricing_issues :=
    match pricing_analysis.pricing.getD (.dict ⟨.absent, .absent, .absent⟩) with
    | .nondict => 0
    | .dict p => ([p.mortality, p.interest, p.expense].filter dimIssueReport).length
  max 0 (min 100 (100 - violationPenalty violations - pricing_issues * 10))

/-- `calculate_grade` from `lib/evaluation.py` (the `report.py`
`if/elif` ladder is identical). -/
def calculate_grade (score : Int) : List Char :=
  if score ≥ 90 then cs "优秀"
  else if score ≥ 75 then cs "良好"
  else if score ≥ 60 then cs "合格"
  else cs "不合格"

/-- The summary dict returned by `calculate_summary` in
`lib/evaluation.py` (the backward-compatibility `violation_severity`
nesting repeats the three counts and is represented by them). -/
structure SummaryDict where
  high : Nat
  medium : Nat
  low : Nat
  total_violations : Nat
  pricing_issues : Nat
  has_issues : Bool
  has_critical_issues : Bool
deriving DecidableEq

/-- `calculate_summary` from `lib/evaluation.py` (the `score` argument
is unused by the returned dict; the `AttributeError` of
`_count_pricing_issues` propagates). -/
def calculate_summary (violations : List Violation)
    (pricing_analysis : PricingAnalysisDict) : Except Unit SummaryDict :=
  let high := (violations.filter (fun v => v.severity = some (cs "high"))).length
  let medium := (violations.filter (fun v => v.severity = some (cs "medium"))).length
  let low := (violations.filter (fun v => v.severity = some (cs "low"))).length
  match count_pricing_issues pricing_analysis with
  | .error e => .error e
  | .ok pricing_issues =>
    .ok { high := high
          medium := medium
          low := low
          total_violations := violations.length
          pricing_issues := pricing_issues
          has_issues := !violations.isEmpty || pricing_issues > 0
          has_critical_issues := high > 0 || pricing_issues > 1 }

/- ============ reporting/generator.py : the remediation resolver ============ -/

/-- One entry of `REMEDIATION_PATTERNS` in `reporting/generator.py`: the
category key, its sub-keyword → suggestion pairs in insertion order
(the order `pattern_dict.items()` iterates them), and its `'_default'`
suggestion. -/
structure RemediationEntry where
  key : List Char
  subs : List (List Char × List Char)
  dflt : List Char

/-- `REMEDIATION_PATTERNS` from `reporting/generator.py`, in insertion
order. -/
def REMEDIATION_PATTERNS : List RemediationEntry :=
  [ ⟨cs "等待期",
     [ (cs "过长", cs "将等待期调整为90天以内")
     , (cs "超过", cs "将等待期调整为90天以内")
     , (cs "症状", cs "删除将等待期内症状或体征作为免责依据的表述")
     , (cs "体征", cs "删除将等待期内症状或体征作为免责依据的表述")
     , (cs "突出", cs "在条款中以加粗或红色字体突出说明等待期") ],
     cs "合理设置等待期长度，确保符合监管规定"⟩
  , ⟨cs "免责条款",
     [ (cs "不集中", cs "将免责条款集中在合同显著位置")
     , (cs "不清晰", cs "使用清晰明确的语言表述免责情形")
     , (cs "表述不清", cs "使用清晰明确的语言表述免责情形")
     , (cs "加粗", cs "使用加粗或红色字体突出显示免责条款")
     , (cs "标红", cs "使用加粗或红色字体突出显示免责条款")
     , (cs "突出", cs "使用加粗或红色字体突出显示免责条款")
     , (cs "免除", cs "删除不合理的免责条款，确保不违反保险法规定") ],
     cs "完善免责条款的表述和展示方式"⟩
  , ⟨cs "责任免除", [], cs "完善免责条款的表述和展示方式"⟩
  , ⟨cs "保险金额",
     [ (cs "不规范", cs "使用规范的保险金额表述，确保与保险法一致")
     , (cs "不一致", cs "使用规范的保险金额表述，确保与保险法一致") ],
     cs "明确保险金额的确定方式和计算标准"⟩
  , ⟨cs "保证收益", [], cs "删除保证收益相关表述，改为演示收益或说明利益不确定"⟩
  , ⟨cs "演示收益", [], cs "删除保证收益相关表述，改为演示收益或说明利益不确定"⟩
  , ⟨cs "费率",
     [ (cs "倒算", cs "停止使用倒算方式确定费率，采用精算方法")
     , (cs "偏离实际", cs "根据实际费用水平重新核算附加费用率")
     , (cs "不真实", cs "重新进行费率厘定，确保符合审慎原则")
     , (cs "不合理", cs "重新进行费率厘定，确保符合审慎原则") ],
     cs "规范费率厘定方法，确保符合监管要求"⟩
  , ⟨cs "现金价值",
     [ (cs "超过", cs "调整现金价值计算方法，确保不超过已交保费")
     , (cs "异化", cs "调整现金价值计算方法，确保不超过已交保费") ],
     cs "规范现金价值计算，确保符合监管规定"⟩
  , ⟨cs "基因", [], cs "删除根据基因检测结果调节费率的约定"⟩
  , ⟨cs "犹豫期",
     [ (cs "过短", cs "将犹豫期调整为15天以上")
     , (cs "不足", cs "将犹豫期调整为15天以上") ],
     cs "规范犹豫期的起算和时长"⟩
  , ⟨cs "利率",
     [ (cs "超过", cs "将预定利率调整为监管上限以内")
     , (cs "超标", cs "将预定利率调整为监管上限以内") ],
     cs "确保预定利率符合监管规定"⟩
  , ⟨cs "预定利率",
     [ (cs "超过", cs "将预定利率调整为监管上限以内")
     , (cs "超标", cs "将预定利率调整为监管上限以内") ],
     cs "确保预定利率符合监管规定"⟩
  , ⟨cs "备案",
     [ (cs "不达标", cs "停止销售不达标产品，按规定报送停止使用报告")
     , (cs "未报送", cs "停止销售不达标产品，按规定报送停止使用报告") ],
     cs "完善产品备案管理，确保符合监管要求"⟩
  , ⟨cs "产品设计异化",
     [ (cs "万能型", cs "调整产品形态设计，避免异化为万能型产品")
     , (cs "偏离", cs "强化风险保障功能，确保符合保险本质") ],
     cs "优化产品设计，确保符合保险保障属性"⟩
  , ⟨cs "异化",
     [ (cs "万能型", cs "调整产品形态设计，避免异化为万能型产品")
     , (cs "偏离", cs "强化风险保障功能，确保符合保险本质") ],
     cs "优化产品设计，确保符合保险保障属性"⟩
  , ⟨cs "条款文字", [], cs "简化条款表述，使用通俗易懂的语言"⟩
  , ⟨cs "冗长", [], cs "简化条款表述，使用通俗易懂的语言"⟩
  , ⟨cs "不易懂", [], cs "简化条款表述，使用通俗易懂的语言"⟩
  , ⟨cs "职业", [], cs "明确职业类别要求和限制"⟩
  , ⟨cs "类别", [], cs "明确职业类别要求和限制"⟩
  , ⟨cs "年龄", [], cs "明确投保年龄范围和要求"⟩
  , ⟨cs "保险期间", [], cs "明确保险期间和保障期限"⟩
  , ⟨cs "保险期限", [], cs "明确保险期间和保障期限"⟩ ]

/-- `VAGUE_REMEDIATION_PHRASES` from `reporting/generator.py` (note the
fourth entry is the empty string). -/
def VAGUE_REMEDIATION_PHRASES : List (List Char) :=
  [cs "请根据具体情况", cs "确保符合", cs "无", cs "", cs "按照《保险法》规定", cs "建议"]

/-- `_find_remediation_by_pattern` from `reporting/generator.py`. -/
def find_remediation_by_pattern (description category : List Char) :
    Option (List Char) :=
  REMEDIATION_PATTERNS.findSome? fun e =>
    if containsSub description e.key || containsSub category e.key then
      some (match e.subs.find? (fun p => containsSub description p.fst) with
            | some p => p.snd
            | none => e.dflt)
    else none

/-- `_get_fallback_remediation` from `reporting/generator.py`. -/
def get_fallback_remediation (description : List Char) : List Char :=
  if containsSub description (cs "规定") || containsSub description (cs "违反") then
    let words := splitOn '，' description
    if words.length > 1 then
      cs "针对" ++ (words.headI.take 30) ++ cs "问题进行调整"
    else cs "请根据违规描述进行相应调整，确保符合监管要求"
  else cs "请根据问题描述进行相应调整，确保符合监管要求"

/-- `_get_specific_remediation` from `reporting/generator.py`.  The
vagueness test is the source's
`any(phrase in default_remediation for phrase in VAGUE_REMEDIATION_PHRASES)`,
a substring test; the `if specific_remediation:` truthiness check makes
an empty pattern result fall through to the fallback. -/
def get_specific_remediation (violation : Violation) : List Char :=
  let default_remediation := violation.remediation
  let description := violation.description
  let category := violation.category
  if VAGUE_REMEDIATION_PHRASES.any
      (fun phrase => containsSub default_remediation phrase) then
    match find_remediation_by_pattern description category with
    | some r => if r.isEmpty then get_fallback_remediation description else r
    | none => get_fallback_remediation description
  else default_remediation

/- ===================== concrete sample data for witnesses ===================== -/

/-- A violation record with the given severity and empty other fields. -/
def sampleViolation (sev : Option (List Char)) : Violation :=
  { clause_index := 0, clause_text := [], clause_reference := [], rule := []
    description := [], severity := sev, category := [], remediation := [] }

/-- A pricing analysis whose `interest` dimension carries
`reasonable: None` (the unparseable-value marker produced by
`scoring.py`) and whose other two dimensions are reasonable. -/
def pricingWithNullInterest : PricingAnalysisDict :=
  ⟨some (.dict ⟨.dict (.val true), .dict .null, .dict (.val true)⟩), false⟩

/- ===================== theorems for the claims ===================== -/

/-- Helper: a clamped value `max 0 (min 100 x)` lies in `[0, 100]`. -/
theorem clamp_mem (x : Int) : 0 ≤ max 0 (min 100 x) ∧ max 0 (min 100 x) ≤ 100 :=
  ⟨le_max_left 0 _, max_le (by norm_num) (min_le_left _ _)⟩

/-- C3: for every violation list and pricing-analysis input, the overall
score — whether computed by `report.py`'s `calculate_score` or by
`lib/evaluation.py`'s `calculate_score` (whenever the latter returns) —
is an integer `s` with `0 ≤ s ≤ 100`. -/
theorem C3_score_bounds (violations : List Violation)
    (pa : PricingAnalysisDict) :
    (0 ≤ calculate_score_report violations pa ∧
      calculate_score_report violations pa ≤ 100) ∧
    (∀ s : Int, calculate_score_eval violations pa = .ok s →
      0 ≤ s ∧ s ≤ 100) := by
  constructor
  · exact clamp_mem _
  · intro s hs
    unfold calculate_score_eval at hs
    cases h : count_pricing_issues pa with
    | error e => rw [h] at hs; cases hs
    | ok n =>
      rw [h] at hs
      injection hs with hs
      rw [← hs]
      exact clamp_mem _

/-- Witness for C3: at the empty violation list and empty pricing
analysis, the evaluation score is `100`, which the theorem bounds. -/
theorem C3_score_bounds_witness : 0 ≤ (100 : Int) ∧ (100 : Int) ≤ 100 :=
  (C3_score_bounds [] ⟨none, false⟩).2 100 (by rfl)

/-- C10: in the evaluation summary, `has_critical_issues` is `true`
exactly when at least one violation has severity `'high'` or the number
of pricing dimensions counted as pricing issues is strictly greater
than one. -/
theorem C10_has_critical_issues (violations : List Violation)
    (pa : PricingAnalysisDict) (s : SummaryDict)
    (h : calculate_summary violations pa = .ok s) :
    s.has_critical_issues = true ↔
      (1 ≤ (violations.filter
              (fun v => v.severity = some (cs "high"))).length
        ∨ 1 < s.pricing_issues) := by
  unfold calculate_summary at h
  cases hc : count_pricing_issues pa with
  | error e => rw [hc] at h; cases h
  | ok n =>
    rw [hc] at h
    injection h with h
    rw [← h]
    simp only [Bool.or_eq_true, decide_eq_true_eq]
    omega

/-- Witness for C10: one high-severity violation and an empty pricing
analysis make `has_critical_issues` true. -/
theorem C10_has_critical_issues_witness :
    (({ high := 1, medium := 0, low := 0, total_violations := 1
        pricing_issues := 0, has_issues := true
        has_critical_issues := true } : SummaryDict).has_critical_issues
      = true ↔
      (1 ≤ ([sampleViolation (some (cs "high"))].filter
              (fun v => v.severity = some (cs "high"))).length
        ∨ 1 < ({ high := 1, medium := 0, low := 0, total_violations := 1
                 pricing_issues := 0, has_issues := true
                 has_critical_issues := true } : SummaryDict).pricing_issues)) :=
  C10_has_critical_issues [sampleViolation (some (cs "high"))]
    ⟨none, false⟩ _ (by rfl)

/-- C2 (code bug): `lib/evaluation.py`'s `_count_pricing_issues` counts a
dimension whose `reasonable` field is `None` as a pricing issue
(`not value.get('reasonable', True)` is true for `None`), so
`calculate_score` there subtracts 10 for it (score 90 on the input
below), whereas `report.py`'s `calculate_score` — like the parallel
copies in `reporting/generator.py` and
`lib/reporting/template/report_template.py`, all of which test
`analysis.get('reasonable') is False` — subtracts nothing (score 100),
which is the behaviour the claim states. -/
theorem C2_null_reasonable_penalized_in_evaluation :
    calculate_score_eval [] pricingWithNullInterest = .ok 90 ∧
    calculate_score_report [] pricingWithNullInterest = 100 ∧
    (90 : Int) ≠ 100 :=
  ⟨rfl, rfl, by decide⟩

/-- The concrete violation for the C1 failing input: its stored
remediation is specific (not equal to any vague sentinel phrase). -/
def violationWithSpecificRemediation : Violation :=
  { clause_index := 0, clause_text := cs "条款文本", clause_reference := cs "第一条"
    rule := cs "R1", description := cs "测试描述"
    severity := some (cs "high"), category := []
    remediation := cs "删除该条款内容" }

/-- C1 (code bug): the stored remediation `"删除该条款内容"` is present and
is not one of the vague sentinel phrases, yet `_get_specific_remediation`
does not return it verbatim: because `VAGUE_REMEDIATION_PHRASES`
contains the empty string and the vagueness test is the substring test
`any(phrase in default_remediation for …)`, every stored remediation is
classified as vague, the final `return default_remediation` is
unreachable, and the resolver falls through to the keyword tables and
the generic fallback. -/
theorem C1_stored_remediation_never_returned :
    violationWithSpecificRemediation.remediation ∉ VAGUE_REMEDIATION_PHRASES ∧
    get_specific_remediation violationWithSpecificRemediation =
      cs "请根据问题描述进行相应调整，确保符合监管要求" ∧
    get_specific_remediation violationWithSpecificRemediation ≠
      violationWithSpecificRemediation.remediation := by decide

/-- The interest benchmark table only holds the positive entries
`0.035` and `0.030`. -/
theorem interestBenchmark_pos (pt : List Char) : 0 < interestBenchmark pt := by
  unfold interestBenchmark
  split
  · norm_num
  · split
    · norm_num
    · split <;> norm_num

/-- C4: for every parsed-and-normalized interest value `q` and the
benchmark selected for the declared product type, the interest dimension
is classified reasonable iff `q ≤ benchmark` and the absolute relative
deviation is at most 10; in particular `q > benchmark` always gives
`reasonable = False`. -/
theorem C4_interest_classification (raw : RawValue) (pt : List Char) (q : ℚ)
    (h : (parseRaw raw).map normalizeValue = some q) :
    ((analyze_interest raw pt).reasonable = some true ↔
      (q ≤ interestBenchmark pt ∧
        |(q - interestBenchmark pt) / interestBenchmark pt * 100| ≤ 10)) ∧
    (interestBenchmark pt < q →
      (analyze_interest raw pt).reasonable = some false) := by
  have hb : interestBenchmark pt ≠ 0 := ne_of_gt (interestBenchmark_pos pt)
  unfold analyze_interest
  rw [h]
  simp only [ne_eq, hb, not_false_eq_true, if_true, Option.some_inj,
    decide_eq_true_eq, decide_eq_false_iff_not]
  constructor
  · trivial
  · intro hlt hle
    exact absurd hle.1 (not_le.mpr hlt)

/-- Witness for C4: the raw value `0.05` for product type `life`
(benchmark `0.035`): after normalization (a no-op) the theorem's
classification applies. -/
theorem C4_interest_classification_witness :
    (((analyze_interest (.num (5 / 100)) (cs "life")).reasonable = some true ↔
      ((5 / 100 : ℚ) ≤ interestBenchmark (cs "life") ∧
        |((5 / 100 : ℚ) - interestBenchmark (cs "life")) /
            interestBenchmark (cs "life") * 100| ≤ 10)) ∧
    (interestBenchmark (cs "life") < (5 / 100 : ℚ) →
      (analyze_interest (.num (5 / 100)) (cs "life")).reasonable = some false)) :=
  C4_interest_classification (.num (5 / 100)) (cs "life") (5 / 100)
    (by norm_num [parseRaw, normalizeValue])

/-- C7 counterexample: `-2` has magnitude greater than 1, yet the
normalization in the analyzers leaves it unchanged (the source tests
`value > 1`, not the magnitude), so it is not divided by 100. -/
theorem C7_negative_value_not_normalized :
    (1 : ℚ) < |(-2 : ℚ)| ∧
    (analyze_interest (.num (-2)) (cs "life")).value = .parsed (-2) ∧
    (-2 : ℚ) ≠ -2 / 100 := by
  refine ⟨by norm_num, by decide, by norm_num⟩

/-- C7 (amended): in all three pricing analyzers, a parsed value is
normalized by dividing by exactly 100, exactly once, when it is
strictly greater than 1, and is left unchanged when it is at most 1 —
including negative values of magnitude greater than 1. -/
theorem C7_normalization (raw : RawValue) (pt : List Char) (q : ℚ)
    (h : parseRaw raw = some q) :
    ((analyze_mortality raw pt).value = .parsed (normalizeValue q) ∧
      (analyze_interest raw pt).value = .parsed (normalizeValue q) ∧
      (analyze_expense raw pt).value = .parsed (normalizeValue q)) ∧
    (1 < q → normalizeValue q = q / 100) ∧
    (q ≤ 1 → normalizeValue q = q) := by
  unfold analyze_mortality analyze_interest analyze_expense
  rw [h]
  refine ⟨⟨rfl, rfl, rfl⟩, ?_, ?_⟩
  · intro hq
    unfold normalizeValue
    rw [if_pos hq]
  · intro hq
    unfold normalizeValue
    rw [if_neg (not_lt.mpr hq)]

/-- Witness for C7 (amended): raw value `250` parses to `250`, which the
theorem's conclusions cover. -/
theorem C7_normalization_witness :
    (((analyze_mortality (.num 250) (cs "life")).value =
        .parsed (normalizeValue 250) ∧
      (analyze_interest (.num 250) (cs "life")).value =
        .parsed (normalizeValue 250) ∧
      (analyze_expense (.num 250) (cs "life")).value =
        .parsed (normalizeValue 250)) ∧
    ((1 : ℚ) < 250 → normalizeValue 250 = 250 / 100) ∧
    ((250 : ℚ) ≤ 1 → normalizeValue 250 = 250)) :=
  C7_normalization (.num 250) (cs "life") 250 (by rfl)

/-- C5: an invalid regular expression anywhere in a rule's pattern list
is a non-match for that pattern only: the matcher's verdict is the one
it gives with the invalid pattern removed, so the rule's keywords and
its other patterns still evaluate and can still fire it (and, the
`re.error` being caught inside `match_rule`, no exception escapes). -/
theorem C5_invalid_regex_is_local_nonmatch (clause : List Char) (rule : Rule)
    (ps qs : List PatternItem) :
    match_rule clause { rule with patterns := .arr (ps ++ .invalid :: qs) } =
    match_rule clause { rule with patterns := .arr (ps ++ qs) } := by
  simp [match_rule, parse_json_field, List.any_append, List.any_cons,
    patternFires]

/-- Helper: the per-clause violation list once the clause's text and
reference are known. -/
theorem clauseViolations_eq (idx : Nat) (entry : ClauseEntry)
    (text reference : List Char) (rules : List Rule)
    (h : clauseInfo idx entry = some (text, reference)) :
    clauseViolations idx entry rules =
      rules.filterMap fun rule =>
        if match_rule text rule then some (mkViolation idx text reference rule)
        else none := by
  unfold clauseViolations
  rw [h]

/-- C6: if a rule has a keyword that is a literal substring of a
clause's full text, `execute` reports a violation for that
(clause, rule) pair, carrying the rule's `rule_number`. -/
theorem C6_keyword_substring_fires (clauses : List ClauseEntry)
    (rules : List Rule) (idx : Nat) (entry : ClauseEntry)
    (text reference : List Char) (rule : Rule) (kw : List Char)
    (hidx : clauses[idx]? = some entry)
    (hinfo : clauseInfo idx entry = some (text, reference))
    (hrule : rule ∈ rules)
    (hkw : JsonItem.str kw ∈ parse_json_field rule.keywords)
    (hsub : containsSub text kw = true) :
    ∃ v ∈ (execute clauses rules).violations,
      v.clause_index = idx ∧ v.rule = rule.rule_number := by
  have hmatch : match_rule text rule = true := by
    unfold match_rule
    refine (Bool.or_eq_true _ _).mpr (Or.inl ?_)
    exact List.any_eq_true.mpr ⟨JsonItem.str kw, hkw, hsub⟩
  have hne : rules.isEmpty = false := by
    cases rules with
    | nil => cases hrule
    | cons a l => rfl
  refine ⟨mkViolation idx text reference rule, ?_, rfl, rfl⟩
  unfold execute
  rw [hne]
  simp only [Bool.false_eq_true, if_false]
  unfold collectViolations
  rw [List.mem_flatMap]
  refine ⟨(idx, entry), ?_, ?_⟩
  · exact List.mk_mem_enum_iff_getElem?.mpr hidx
  · rw [clauseViolations_eq idx entry text reference rules hinfo]
    rw [List.mem_filterMap]
    exact ⟨rule, hrule, by rw [if_pos hmatch]⟩

/-- The sample rule for the C6 witness: keyword "等待期", no patterns. -/
def ruleWaitingPeriod : Rule :=
  { rule_number := cs "R1", description := cs "等待期过长"
    severity := cs "high", category := some (cs "产品责任设计")
    remediation := some []
    keywords := .arr [.str (cs "等待期")], patterns := .arr [] }

/-- Witness for C6: the clause "等待期为180天" contains the keyword
"等待期" of the sample rule, so `execute` reports it. -/
theorem C6_keyword_substring_fires_witness :
    ∃ v ∈ (execute [.str (cs "等待期为180天")] [ruleWaitingPeriod]).violations,
      v.clause_index = 0 ∧ v.rule = ruleWaitingPeriod.rule_number :=
  C6_keyword_substring_fires [.str (cs "等待期为180天")] [ruleWaitingPeriod]
    0 (.str (cs "等待期为180天")) (cs "等待期为180天") (defaultReference 0)
    ruleWaitingPeriod (cs "等待期")
    (by rfl) (by rfl) (List.Mem.head _) (by decide) (by decide)

/-- Helper: every preview produced by `clausePreview` has at most 103
characters (100 of text plus the three-character ellipsis). -/
theorem clausePreview_length_le (text : List Char) :
    (clausePreview text).length ≤ 103 := by
  unfold clausePreview
  split
  next h =>
    rw [List.length_append, List.length_take]
    have h3 : (cs "...").length = 3 := rfl
    omega
  next h => omega

/-- Helper: every violation in a per-clause result is a `mkViolation`
for that clause index. -/
theorem mem_clauseViolations (idx : Nat) (entry : ClauseEntry)
    (rules : List Rule) (v : Violation)
    (hv : v ∈ clauseViolations idx entry rules) :
    ∃ text reference rule, v = mkViolation idx text reference rule := by
  cases hci : clauseInfo idx entry with
  | none =>
    unfold clauseViolations at hv
    rw [hci] at hv
    cases hv
  | some tr =>
    obtain ⟨text, reference⟩ := tr
    rw [clauseViolations_eq idx entry text reference rules hci] at hv
    rw [List.mem_filterMap] at hv
    obtain ⟨rule, hrule, heq⟩ := hv
    refine ⟨text, reference, rule, ?_⟩
    by_cases hm : match_rule text rule = true
    · rw [if_pos hm] at heq
      exact (Option.some_inj.mp heq).symm
    · rw [if_neg hm] at heq
      cases heq

/-- The clause of 101 copies of `a` for the C9 counterexample. -/
def longClause : List Char := List.replicate 101 'a'

/-- A rule whose single keyword `a` fires on `longClause`. -/
def ruleLetterA : Rule :=
  { rule_number := cs "R2", description := cs "描述", severity := cs "low"
    category := none, remediation := none
    keywords := .arr [.str [ 'a' ]], patterns := .arr [] }

/-- C9 counterexample: a clause of 101 characters yields a violation
whose `clause_text` preview has 103 characters (the first 100 plus the
`'...'` ellipsis), exceeding the claimed 100-character cap. -/
theorem C9_preview_exceeds_100 :
    ((execute [.str longClause] [ruleLetterA]).violations.map
      (fun v => v.clause_text.length)) = [103] ∧ ¬((103 : Nat) ≤ 100) := by
  exact ⟨by decide, by decide⟩

/-- C9 (amended): every violation produced by `execute` carries a
`clause_text` preview of at most 103 characters — the full text when it
has at most 100 characters, and its first 100 characters followed by a
three-character ellipsis otherwise. -/
theorem C9_preview_capped_103 (clauses : List ClauseEntry)
    (rules : List Rule) (v : Violation)
    (hv : v ∈ (execute clauses rules).violations) :
    v.clause_text.length ≤ 103 := by
  unfold execute at hv
  split at hv
  · cases hv
  · unfold collectViolations at hv
    obtain ⟨p, hp, hmem⟩ := List.mem_flatMap.mp hv
    obtain ⟨text, reference, rule, rfl⟩ := mem_clauseViolations p.1 p.2 rules v hmem
    exact clausePreview_length_le text

/-- Witness for C9 (amended): the violation produced for `longClause`
has a preview of at most 103 characters. -/
theorem C9_preview_capped_103_witness :
    (mkViolation 0 longClause (defaultReference 0) ruleLetterA).clause_text.length
      ≤ 103 :=
  C9_preview_capped_103 [.str longClause] [ruleLetterA] _ (by decide)

/-- C8 counterexample: a violation whose severity `"HIGH"` is not one of
the three known values is nevertheless counted in the `high` bucket by
`check.py`'s `group_by_severity`, because the source lowercases the
severity before bucketing. -/
theorem C8_unknown_severity_counted :
    group_by_severity [sampleViolation (some (cs "HIGH"))] =
      { high := 1, medium := 0, low := 0 } ∧
    (cs "HIGH" ≠ cs "high" ∧ cs "HIGH" ≠ cs "medium" ∧ cs "HIGH" ≠ cs "low") := by
  exact ⟨by decide, by decide⟩

/-- Helper: filtering by `p` after filtering by a weaker predicate `q`
is filtering by `p`. -/
theorem filter_filter_of_imp {α : Type} (p q : α → Bool) (l : List α)
    (h : ∀ a, p a = true → q a = true) :
    (l.filter q).filter p = l.filter p := by
  induction l with
  | nil => rfl
  | cons a l ih =>
    by_cases hp : p a = true
    · have hq := h a hp
      simp [List.filter_cons, hp, hq, ih]
    · by_cases hq : q a = true
      · simp [List.filter_cons, hp, hq, ih]
      · simp [List.filter_cons, hp, hq, ih]

/-- The severity key under which `group_by_severity` buckets a
violation: `violation.get('severity', 'low').lower()`. -/
def bucketKey (v : Violation) : List Char :=
  lowerStr (v.severity.getD (cs "low"))

/-- C8 (amended): `check.py`'s `group_by_severity` buckets count the
violations whose severity — defaulted to `'low'` when absent and then
lowercased — equals the bucket's value, so case-variants of the known
severities are counted and a missing severity counts as `'low'`;
violations whose defaulted-and-lowercased severity is none of the three
known values are excluded from every bucket (removing them does not
change any bucket) while remaining in the raw list.
`lib/evaluation.py`'s `calculate_summary` buckets count exact severity
matches, as the claim states.  Neither function raises on an unknown
severity (both are total). -/
theorem C8_bucket_semantics (violations : List Violation)
    (pa : PricingAnalysisDict) (s : SummaryDict)
    (h : calculate_summary violations pa = .ok s) :
    ((group_by_severity violations).high =
        (violations.filter (fun v => bucketKey v = cs "high")).length ∧
      (group_by_severity violations).medium =
        (violations.filter (fun v => bucketKey v = cs "medium")).length ∧
      (group_by_severity violations).low =
        (violations.filter (fun v => bucketKey v = cs "low")).length) ∧
    group_by_severity
        (violations.filter (fun v =>
          bucketKey v = cs "high" ∨ bucketKey v = cs "medium"
            ∨ bucketKey v = cs "low")) =
      group_by_severity violations ∧
    (s.high =
        (violations.filter (fun v => v.severity = some (cs "high"))).length ∧
      s.medium =
        (violations.filter (fun v => v.severity = some (cs "medium"))).length ∧
      s.low =
        (violations.filter (fun v => v.severity = some (cs "low"))).length) := by
  refine ⟨⟨rfl, rfl, rfl⟩, ?_, ?_⟩
  · unfold group_by_severity
    have cong : ∀ target : List Char,
        (target = cs "high" ∨ target = cs "medium" ∨ target = cs "low") →
        (violations.filter (fun v =>
            bucketKey v = cs "high" ∨ bucketKey v = cs "medium"
              ∨ bucketKey v = cs "low")).filter
            (fun v => lowerStr (v.severity.getD (cs "low")) = target) =
          violations.filter
            (fun v => lowerStr (v.severity.getD (cs "low")) = target) := by
      intro target ht
      refine filter_filter_of_imp _ _ _ ?_
      intro v hp
      simp only [decide_eq_true_eq] at hp
      simp only [decide_eq_true_eq, bucketKey]
      rcases ht with ht | ht | ht <;> subst ht
      · exact Or.inl hp
      · exact Or.inr (Or.inl hp)
      · exact Or.inr (Or.inr hp)
    simp only []
    rw [cong (cs "high") (Or.inl rfl), cong (cs "medium") (Or.inr (Or.inl rfl)),
      cong (cs "low") (Or.inr (Or.inr rfl))]
  · unfold calculate_summary at h
    cases hc : count_pricing_issues pa with
    | error e => rw [hc] at h; cases h
    | ok n =>
      rw [hc] at h
      injection h with h
      rw [← h]
      exact ⟨rfl, rfl, rfl⟩

/-- Witness for C8 (amended): instantiated at one violation of severity
`'high'` and an empty pricing analysis. -/
theorem C8_bucket_semantics_witness :
    ((group_by_severity [sampleViolation (some (cs "high"))]).high =
        ([sampleViolation (some (cs "high"))].filter
          (fun v => bucketKey v = cs "high")).length ∧
      (group_by_severity [sampleViolation (some (cs "high"))]).medium =
        ([sampleViolation (some (cs "high"))].filter
          (fun v => bucketKey v = cs "medium")).length ∧
      (group_by_severity [sampleViolation (some (cs "high"))]).low =
        ([sampleViolation (some (cs "high"))].filter
          (fun v => bucketKey v = cs "low")).length) ∧
    group_by_severity
        ([sampleViolation (some (cs "high"))].filter (fun v =>
          bucketKey v = cs "high" ∨ bucketKey v = cs "medium"
            ∨ bucketKey v = cs "low")) =
      group_by_severity [sampleViolation (some (cs "high"))] ∧
    (({ high := 1, medium := 0, low := 0, total_violations := 1
        pricing_issues := 0, has_issues := true
        has_critical_issues := true } : SummaryDict).high =
        ([sampleViolation (some (cs "high"))].filter
          (fun v => v.severity = some (cs "high"))).length ∧
      ({ high := 1, medium := 0, low := 0, total_violations := 1
         pricing_issues := 0, has_issues := true
         has_critical_issues := true } : SummaryDict).medium =
        ([sampleViolation (some (cs "high"))].filter
          (fun v => v.severity = some (cs "medium"))).length ∧
      ({ high := 1, medium := 0, low := 0, total_violations := 1
         pricing_issues := 0, has_issues := true
         has_critical_issues := true } : SummaryDict).low =
        ([sampleViolation (some (cs "high"))].filter
          (fun v => v.severity = some (cs "low"))).length) :=
  C8_bucket_semantics [sampleViolation (some (cs "high"))] ⟨none, false⟩ _ (by rfl)

end ActuarySleuth
